import Mathlib

/-!
Verification of the Miniflux-to-Instapaper webhook service (`app.py`)
against its natural-language specification.

The development is a shallow embedding of the core of `app.py`:

* `saveOutcome` / `add_article` embed `InstapaperClient.add_article`: the
  upstream HTTP exchange is represented by its observable result, a value of
  type `Except Unit Nat` (`.error` = a transport-level failure raised as a
  `RequestException`, `.ok code` = an HTTP status code).  The branch structure
  of the Python function is kept exactly; `saveOutcome` names each branch with
  the outcome enum of the specification, `add_article` is the boolean the
  Python function actually returns.
* `sha256Bytes`, `hmacSha256`, `hexdigest`, `compare_digest` embed the
  standard-library calls `hashlib.sha256`, `hmac.new(...).hexdigest()` and
  `hmac.compare_digest` used by `verify_webhook_signature`; bytes are
  `List Nat` (each < 256 in intent), strings are `List Char`.
* `stripTags` embeds the `re.sub` call that deletes every match of the
  tag regex (a `<`, one or more non-`>` characters, then `>`) as a single
  left-to-right scan equivalent to the leftmost, non-overlapping matching of
  the Python regex engine on this pattern, and `makeNote` embeds the
  description derivation (truncate to 200 characters plus an ellipsis
  marker).
* `JVal` is a model of the parsed JSON values manipulated dynamically by the
  handler; `jtruthy` is Python truthiness on those values.  `normalizeOne`
  embeds the shared per-entry field extraction of `process_new_entries` and
  `process_saved_entry` (`.exc` models a per-entry exception: `.get` on a
  non-dict entry, or `re.sub` applied to a truthy non-string content).
* `process_new_entries`, `process_saved_entry` and `webhook_handler` embed
  the functions of the same names; the upstream network is a parameter
  `net : SaveReq → Except Unit Nat` and every result is paired with the
  ordered trace of outbound `add_article` calls.  JSON *parsing* of the raw
  request body is a boundary: a `Request` carries the raw bytes (used for
  signature verification) together with the outcome of `request.get_json()`.
  Duck typing of the `entries` value is modelled by `entriesLen` and
  `entriesIter`: lists, strings and dicts are sized and iterable (strings and
  dicts yield string elements, which fail per entry), other values raise into
  the top-level catch-all.
-/

/-- Python strings are modelled as lists of characters. -/
abbrev Str := List Char

/-- The `SaveOutcome` enum of the specification (§3 of the spec). -/
inductive SaveOutcome where
  | Saved
  | AuthFailed
  | BadRequest
  | ServiceUnavailable
  | UnexpectedStatus
  | TransportError
deriving DecidableEq, Repr

/-- The result of the upstream HTTP POST in `InstapaperClient.add_article`:
`.error ()` is a transport-level failure (`requests.exceptions.RequestException`),
`.ok code` an HTTP response with the given status code. -/
abbrev UpstreamResp := Except Unit Nat

/-- The branch taken by `InstapaperClient.add_article` (app.py lines 85-110),
named with the outcome enum of the specification.  Each arm corresponds to one
branch of the Python `if`/`elif`/`else`/`except` chain. -/
def saveOutcome (resp : UpstreamResp) : SaveOutcome :=
  match resp with
  | .error _ => SaveOutcome.TransportError
  | .ok code =>
    if code = 201 then SaveOutcome.Saved
    else if code = 403 then SaveOutcome.AuthFailed
    else if code = 400 then SaveOutcome.BadRequest
    else if code = 500 then SaveOutcome.ServiceUnavailable
    else SaveOutcome.UnexpectedStatus

/-- The boolean returned by `InstapaperClient.add_article`: `True` only in the
201 branch, `False` in the 403 / 400 / 500 / other-status branches and in the
two `except` clauses. -/
def add_article (resp : UpstreamResp) : Bool :=
  match resp with
  | .error _ => false
  | .ok code =>
    if code = 201 then true
    else if code = 403 then false
    else if code = 400 then false
    else if code = 500 then false
    else false

theorem add_article_eq_saved (resp : UpstreamResp) :
    add_article resp = true ↔ saveOutcome resp = SaveOutcome.Saved := by
  cases resp with
  | error e => simp [add_article, saveOutcome]
  | ok code =>
    by_cases h1 : code = 201 <;> by_cases h2 : code = 403 <;>
      by_cases h3 : code = 400 <;> by_cases h4 : code = 500 <;>
      simp [add_article, saveOutcome, h1, h2, h3, h4]

theorem add_article_iff_201 (resp : UpstreamResp) :
    add_article resp = true ↔ resp = Except.ok 201 := by
  cases resp with
  | error e => simp [add_article]
  | ok code =>
    by_cases h1 : code = 201 <;> by_cases h2 : code = 403 <;>
      by_cases h3 : code = 400 <;> by_cases h4 : code = 500 <;>
      simp [add_article, h1, h2, h3, h4]

/-! ### `hashlib.sha256` / `hmac` (standard-library collaborators of
`verify_webhook_signature`), embedded over byte lists -/

/-- Reduction modulo 2^32, the word size of SHA-256. -/
def mod32 (x : Nat) : Nat := x % 4294967296

/-- 32-bit right rotation. -/
def rotr32 (n x : Nat) : Nat := mod32 ((x >>> n) ||| (x <<< (32 - n)))

def smallSigma0 (x : Nat) : Nat := (rotr32 7 x) ^^^ (rotr32 18 x) ^^^ (x >>> 3)

def smallSigma1 (x : Nat) : Nat := (rotr32 17 x) ^^^ (rotr32 19 x) ^^^ (x >>> 10)

def bigSigma0 (x : Nat) : Nat := (rotr32 2 x) ^^^ (rotr32 13 x) ^^^ (rotr32 22 x)

def bigSigma1 (x : Nat) : Nat := (rotr32 6 x) ^^^ (rotr32 11 x) ^^^ (rotr32 25 x)

/-- The 64 SHA-256 round constants, written in decimal. -/
def shaK : List Nat :=
  [1116352408, 1899447441, 3049323471, 3921009573, 961987163,
   1508970993, 2453635748, 2870763221, 3624381080, 310598401,
   607225278, 1426881987, 1925078388, 2162078206, 2614888103,
   3248222580, 3835390401, 4022224774, 264347078, 604807628,
   770255983, 1249150122, 1555081692, 1996064986, 2554220882,
   2821834349, 2952996808, 3210313671, 3336571891, 3584528711,
   113926993, 338241895, 666307205, 773529912, 1294757372,
   1396182291, 1695183700, 1986661051, 2177026350, 2456956037,
   2730485921, 2820302411, 3259730800, 3345764771, 3516065817,
   3600352804, 4094571909, 275423344, 430227734, 506948616,
   659060556, 883997877, 958139571, 1322822218, 1537002063,
   1747873779, 1955562222, 2024104815, 2227730452, 2361852424,
   2428436474, 2756734187, 3204031479, 3329325298]

/-- The SHA-256 initial hash value, written in decimal. -/
def shaH0 : List Nat :=
  [1779033703, 3144134277, 1013904242, 2773480762, 1359893119,
   2600822924, 528734635, 1541459225]

/-- Big-endian 8-byte encoding of a natural number (the length field of the
SHA-256 padding). -/
def beBytes8 (n : Nat) : List Nat :=
  [(n >>> 56) % 256, (n >>> 48) % 256, (n >>> 40) % 256, (n >>> 32) % 256,
   (n >>> 24) % 256, (n >>> 16) % 256, (n >>> 8) % 256, n % 256]

/-- SHA-256 padding: append `0x80`, zero bytes to reach 56 mod 64, then the
message bit length as 8 big-endian bytes. -/
def padMsg (msg : List Nat) : List Nat :=
  msg ++ 0x80 :: List.replicate ((119 - msg.length % 64) % 64) 0 ++ beBytes8 (8 * msg.length)

/-- Split a byte list into 64-byte blocks. -/
def chunks64 (l : List Nat) : List (List Nat) :=
  if h : l = [] then []
  else (l.take 64) :: chunks64 (l.drop 64)
termination_by l.length
decreasing_by
  have hp : 0 < l.length := List.length_pos.mpr h
  simp only [List.length_drop]
  omega

/-- The 16 initial 32-bit words of a 64-byte block, big-endian. -/
def blockWords (block : List Nat) : List Nat :=
  (List.range 16).map (fun i =>
    ((block.getD (4 * i) 0) <<< 24) ||| ((block.getD (4 * i + 1) 0) <<< 16) |||
    ((block.getD (4 * i + 2) 0) <<< 8) ||| block.getD (4 * i + 3) 0)

/-- Extend 16 schedule words to 64. -/
def extendWords (ws : List Nat) : List Nat :=
  (List.range 48).foldl (fun w _ =>
    let n := w.length
    w ++ [mod32 (smallSigma1 (w.getD (n - 2) 0) + w.getD (n - 7) 0 +
                 smallSigma0 (w.getD (n - 15) 0) + w.getD (n - 16) 0)]) ws

/-- One application of the SHA-256 compression function. -/
def compressBlock (h : List Nat) (block : List Nat) : List Nat :=
  let w := extendWords (blockWords block)
  let final := (List.range 64).foldl (fun st i =>
    match st with
    | [a, b, c, d, e, f, g, hh] =>
      let ch := (e &&& f) ^^^ ((e ^^^ 0xffffffff) &&& g)
      let maj := (a &&& b) ^^^ (a &&& c) ^^^ (b &&& c)
      let t1 := mod32 (hh + bigSigma1 e + ch + shaK.getD i 0 + w.getD i 0)
      let t2 := mod32 (bigSigma0 a + maj)
      [mod32 (t1 + t2), a, b, c, mod32 (d + t1), e, f, g]
    | st => st) h
  (List.zip h final).map (fun p => mod32 (p.1 + p.2))

/-- SHA-256 of a byte list, as the 32-byte big-endian digest. -/
def sha256Bytes (msg : List Nat) : List Nat :=
  ((chunks64 (padMsg msg)).foldl compressBlock shaH0).foldr
    (fun w acc => ((w >>> 24) % 256) :: ((w >>> 16) % 256) :: ((w >>> 8) % 256) :: (w % 256) :: acc) []

/-- HMAC-SHA256 (`hmac.new(key, msg, hashlib.sha256)`), block size 64 bytes. -/
def hmacSha256 (key msg : List Nat) : List Nat :=
  let k0 := if 64 < key.length then sha256Bytes key else key
  let kpad := k0 ++ List.replicate (64 - k0.length) 0
  sha256Bytes ((kpad.map (fun b => b ^^^ 0x5c)) ++
    sha256Bytes ((kpad.map (fun b => b ^^^ 0x36)) ++ msg))

/-- A hexadecimal digit character, lowercase as produced by `.hexdigest()`. -/
def hexChar (n : Nat) : Char := if n < 10 then Char.ofNat (48 + n) else Char.ofNat (87 + n)

/-- `.hexdigest()`: lowercase hex encoding of a byte list. -/
def hexdigest (bytes : List Nat) : Str :=
  bytes.foldr (fun b acc => hexChar ((b >>> 4) % 16) :: hexChar (b % 16) :: acc) []

/-- UTF-8 encoding of one character, as `str.encode` with encoding UTF-8. -/
def encodeUtf8Char (c : Char) : List Nat :=
  let n := c.toNat
  if n < 0x80 then [n]
  else if n < 0x800 then [0xc0 ||| (n >>> 6), 0x80 ||| (n &&& 0x3f)]
  else if n < 0x10000 then
    [0xe0 ||| (n >>> 12), 0x80 ||| ((n >>> 6) &&& 0x3f), 0x80 ||| (n &&& 0x3f)]
  else
    [0xf0 ||| (n >>> 18), 0x80 ||| ((n >>> 12) &&& 0x3f), 0x80 ||| ((n >>> 6) &&& 0x3f),
     0x80 ||| (n &&& 0x3f)]

/-- UTF-8 encoding of a string. -/
def encodeUtf8 (s : Str) : List Nat := s.foldr (fun c acc => encodeUtf8Char c ++ acc) []

/-- `hmac.compare_digest` on two strings: length check, then an accumulated-or
comparison with no short circuit (constant time over equal lengths). -/
def compare_digest (a b : Str) : Bool :=
  if a.length = b.length then
    ((List.zip a b).foldl (fun acc p => acc ||| (p.1.toNat ^^^ p.2.toNat)) 0) == 0
  else false

/-- `verify_webhook_signature` (app.py lines 116-138): empty secret bypasses
verification; otherwise the hex HMAC-SHA256 of the payload under the UTF-8
encoded secret is compared to the provided signature with `compare_digest`. -/
def verify_webhook_signature (payload : List Nat) (signature : Str) (secret : Str) : Bool :=
  if secret = [] then true
  else compare_digest (hexdigest (hmacSha256 (encodeUtf8 secret) payload)) signature

theorem zip_self_foldl_or (x : Str) (acc : Nat) :
    (List.zip x x).foldl (fun acc p => acc ||| (p.1.toNat ^^^ p.2.toNat)) acc = acc := by
  induction x generalizing acc with
  | nil => rfl
  | cons c t ih => simp [List.zip_cons_cons, List.foldl_cons, Nat.xor_self, Nat.or_zero, ih]

theorem compare_digest_self (x : Str) : compare_digest x x = true := by
  simp [compare_digest, zip_self_foldl_or]

/-! ### EntryNormalizer: tag stripping and note derivation -/

/-- The `re.sub` deletion of every match of the tag regex — a `<`, one or
more non-`>` characters, then `>` — as a single left-to-right scan.  The second
argument of `stripTagsGo` is the buffer of characters consumed since an open
`<` (in reverse, the `<` included); the pattern requires at least one
non-`>` character between the brackets, so a buffer holding only `<` when `>`
arrives is no match and both characters are kept.  A buffer left open at the
end of the input never contains `>` and so can match nowhere; it is kept
literally. -/
def stripTagsGo : Option (List Char) → List Char → List Char
  | none, [] => []
  | some buf, [] => buf.reverse
  | none, c :: rest =>
    if c = '<' then stripTagsGo (some [c]) rest
    else c :: stripTagsGo none rest
  | some buf, c :: rest =>
    if c = '>' then
      if buf = ['<'] then '<' :: '>' :: stripTagsGo none rest
      else stripTagsGo none rest
    else stripTagsGo (some (c :: buf)) rest

def stripTags (s : Str) : Str := stripTagsGo none s

/-- The three-character ellipsis marker appended on truncation. -/
def ellipsis : Str := ['.', '.', '.']

/-- The description derivation shared by `process_new_entries` (lines 169-177)
and `process_saved_entry` (lines 223-230): `None` when `content` is falsy,
otherwise the tag-stripped text, truncated to 200 characters plus a dot-dot-dot
when longer than 200. -/
def makeNote (content : Str) : Option Str :=
  if content = [] then none
  else
    let t := stripTags content
    if 200 < t.length then some (t.take 200 ++ ellipsis) else some t

/-! ### JSON values and Python truthiness -/

/-- Parsed JSON values as manipulated (duck-typed) by the handler. -/
inductive JVal where
  | null
  | bool (b : Bool)
  | num (n : Int)
  | str (s : Str)
  | arr (xs : List JVal)
  | obj (fields : List (Str × JVal))

/-- Python truthiness of a parsed JSON value: `None`, `False`, `0`, `""`,
`[]` and the empty dict are falsy. -/
def jtruthy : JVal → Bool
  | .null => false
  | .bool b => b
  | .num n => n != 0
  | .str s => !s.isEmpty
  | .arr xs => !xs.isEmpty
  | .obj fs => !fs.isEmpty

/-- `dict.get`: first value bound to the key, if any. -/
def olookup (fs : List (Str × JVal)) (k : Str) : Option JVal :=
  match fs with
  | [] => none
  | (k', v) :: rest => if k' = k then some v else olookup rest k

def urlKey : Str := "url".data

def titleKey : Str := "title".data

def contentKey : Str := "content".data

/-- The arguments of one `InstapaperClient.add_article` call (the outbound
save request of the specification). `selection` is the derived note. -/
structure SaveReq where
  url : JVal
  title : JVal
  selection : Option Str

/-- Result of the per-entry front half shared by both processing loops:
`.skip` for a falsy `url`, `.exc` for a per-entry Python exception (`.get`
on a non-dict entry, or `re.sub` applied to a truthy non-string `content`),
otherwise the save request before any provenance tag. -/
inductive NormResult where
  | skip
  | exc
  | req (r : SaveReq)

/-- Per-entry field extraction and note derivation, common to
`process_new_entries` (lines 158-177) and `process_saved_entry`
(lines 213-230): url from `entry.get` (default `None`), title and content
from `entry.get` with empty-string defaults, skip on falsy url, then the
description from `content`. -/
def normalizeOne (e : JVal) : NormResult :=
  match e with
  | .obj fs =>
    let url := (olookup fs urlKey).getD JVal.null
    let title := (olookup fs titleKey).getD (JVal.str [])
    let content := (olookup fs contentKey).getD (JVal.str [])
    if jtruthy url = false then .skip
    else
      match content with
      | .str s => .req ⟨url, title, makeNote s⟩
      | c => if jtruthy c then .exc else .req ⟨url, title, none⟩
  | _ => .exc

/-! ### Batch and single-entry processing -/

/-- One iteration of the `for entry in entries` loop of `process_new_entries`
(lines 158-192): a skipped entry or a per-entry exception leaves the
accumulator unchanged; otherwise one outbound call is made and the count
incremented exactly when `add_article` returned `True`. -/
def pneStep (net : SaveReq → UpstreamResp) (acc : Nat × List SaveReq) (e : JVal) :
    Nat × List SaveReq :=
  match normalizeOne e with
  | .skip => acc
  | .exc => acc
  | .req r => (if add_article (net r) then acc.1 + 1 else acc.1, acc.2 ++ [r])

/-- `process_new_entries` (lines 141-194), returning the processed count
together with the ordered trace of outbound save calls.  The upstream network
is the parameter `net`. -/
def process_new_entries (username : Str) (net : SaveReq → UpstreamResp)
    (entries : List JVal) : Nat × List SaveReq :=
  if username = [] then (0, [])
  else entries.foldl (pneStep net) (0, [])

/-- The fixed provenance tag of `process_saved_entry` (lines 232-236). -/
def tagText : Str := "[Saved from Miniflux]".data

/-- Lines 233-236: a truthy description gets the tag and a space prefixed;
a falsy one (`None` or `""`) is replaced by the tag alone. -/
def applyTag (d : Option Str) : Str :=
  match d with
  | some s => if s = [] then tagText else tagText ++ ' ' :: s
  | none => tagText

def tagReq (r : SaveReq) : SaveReq := { r with selection := some (applyTag r.selection) }

/-- `process_saved_entry` (lines 197-253), returning the boolean result and
the trace of outbound save calls. -/
def process_saved_entry (username : Str) (net : SaveReq → UpstreamResp)
    (e : JVal) : Bool × List SaveReq :=
  if username = [] then (false, [])
  else
    match normalizeOne e with
    | .skip => (false, [])
    | .exc => (false, [])
    | .req r => (add_article (net (tagReq r)), [tagReq r])

/-! ### The webhook dispatcher -/

def entriesKey : Str := "entries".data

def entryKey : Str := "entry".data

def feedKey : Str := "feed".data

def errKey : Str := "error".data

def statusKey : Str := "status".data

def eventTypeKey : Str := "event_type".data

def entriesReceivedKey : Str := "entries_received".data

def entriesProcessedKey : Str := "entries_processed".data

def entryProcessedKey : Str := "entry_processed".data

def entryTitleKey : Str := "entry_title".data

def messageKey : Str := "message".data

def newEntriesS : Str := "new_entries".data

def saveEntryS : Str := "save_entry".data

/-- `len()` applied to the value of the `entries` field (line 300): defined
for lists, strings and dicts, a `TypeError` (modelled `.error`) otherwise. -/
def entriesLen : JVal → Except Unit Nat
  | .arr xs => .ok xs.length
  | .str s => .ok s.length
  | .obj fs => .ok fs.length
  | _ => .error ()

/-- Python iteration over the value of the `entries` field: a list yields its
elements, a string its one-character substrings, a dict its keys. -/
def entriesIter : JVal → List JVal
  | .arr xs => xs
  | .str s => s.map (fun c => JVal.str [c])
  | .obj fs => fs.map (fun p => JVal.str p.1)
  | _ => []

/-- Line 298, the feed title: `data.get` of `feed` defaulting to an empty dict,
then `.get` of `title` defaulting to `Unknown feed`; raises
(`.error`) when the `feed` value is present but not a dict. -/
def feedTitleOf (fs : List (Str × JVal)) : Except Unit JVal :=
  match (olookup fs feedKey).getD (JVal.obj []) with
  | .obj gs => .ok ((olookup gs titleKey).getD (JVal.str ("Unknown feed".data)))
  | _ => .error ()

/-- The read-only process configuration used by the handler. -/
structure Config where
  secret : Str
  username : Str

/-- An inbound `POST /webhook` request: the two headers, the raw body bytes
used for signature verification, and the outcome of `request.get_json()`
(JSON parsing itself is a boundary collaborator). -/
structure Request where
  signature : Str
  eventType : Str
  rawBody : List Nat
  parsed : Except Unit JVal

/-- An HTTP response: status code and JSON object body as an ordered field
list. -/
abbrev RespBody := List (Str × JVal)

/-- The catch-all `except` of the handler (lines 334-336). -/
def internalErrorResp : (Nat × RespBody) × List SaveReq :=
  ((500, [(errKey, JVal.str ("Internal server error".data))]), [])

/-- `webhook_handler` (lines 262-336), paired with the ordered trace of
outbound save calls.  Dynamic attribute errors (`.get` on a non-dict, `len()`
on a non-sized value) land in the top-level catch-all and produce the
internal-error response. -/
def webhook_handler (cfg : Config) (net : SaveReq → UpstreamResp) (req : Request) :
    (Nat × RespBody) × List SaveReq :=
  if cfg.secret ≠ [] ∧ verify_webhook_signature req.rawBody req.signature cfg.secret = false then
    ((403, [(errKey, JVal.str ("Invalid signature".data))]), [])
  else
    match req.parsed with
    | .error _ => ((400, [(errKey, JVal.str ("Invalid JSON".data))]), [])
    | .ok data =>
      if jtruthy data = false then
        ((400, [(errKey, JVal.str ("Empty payload".data))]), [])
      else if req.eventType = newEntriesS then
        match data with
        | .obj fs =>
          let entriesV := (olookup fs entriesKey).getD (JVal.arr [])
          match feedTitleOf fs, entriesLen entriesV with
          | .ok feedTitle, .ok n =>
            let res := process_new_entries cfg.username net (entriesIter entriesV)
            ((200, [(statusKey, JVal.str ("success".data)),
                    (eventTypeKey, JVal.str req.eventType),
                    (entriesReceivedKey, JVal.num (n : Int)),
                    (entriesProcessedKey, JVal.num (res.1 : Int)),
                    (feedKey, feedTitle)]), res.2)
          | _, _ => internalErrorResp
        | _ => internalErrorResp
      else if req.eventType = saveEntryS then
        match data with
        | .obj fs =>
          match (olookup fs entryKey).getD (JVal.obj []) with
          | .obj gs =>
            let res := process_saved_entry cfg.username net (JVal.obj gs)
            ((200, [(statusKey,
                     if res.1 then JVal.str ("success".data) else JVal.str ("error".data)),
                    (eventTypeKey, JVal.str req.eventType),
                    (entryProcessedKey, JVal.bool res.1),
                    (entryTitleKey,
                     (olookup gs titleKey).getD (JVal.str ("Unknown title".data)))]), res.2)
          | _ => internalErrorResp
        | _ => internalErrorResp
      else
        ((200, [(statusKey, JVal.str ("ignored".data)),
                (eventTypeKey, JVal.str req.eventType),
                (messageKey, JVal.str ("Event type not supported".data))]), [])

/-- The save request an entry contributes when it is neither skipped nor hit
by a per-entry exception (used to state trace properties of the batch loop). -/
def entryRequest (e : JVal) : Option SaveReq :=
  match normalizeOne e with
  | .req r => some r
  | _ => none

/-! ### Helper lemmas -/

theorem add_article_beq (resp : UpstreamResp) :
    add_article resp = (saveOutcome resp == SaveOutcome.Saved) := by
  cases resp with
  | error e => simp [add_article, saveOutcome]
  | ok code =>
    by_cases h1 : code = 201 <;> by_cases h2 : code = 403 <;>
      by_cases h3 : code = 400 <;> by_cases h4 : code = 500 <;>
      simp [add_article, saveOutcome, h1, h2, h3, h4]

theorem pne_foldl (net : SaveReq → UpstreamResp) (l : List JVal) (c : Nat)
    (calls : List SaveReq) :
    l.foldl (pneStep net) (c, calls) =
      (c + ((l.filterMap entryRequest).filter (fun r => add_article (net r))).length,
       calls ++ l.filterMap entryRequest) := by
  induction l generalizing c calls with
  | nil => simp
  | cons e t ih =>
    simp only [List.foldl_cons, List.filterMap_cons]
    cases hn : normalizeOne e with
    | skip => simp [pneStep, entryRequest, hn, ih]
    | exc => simp [pneStep, entryRequest, hn, ih]
    | req r =>
      simp only [pneStep, entryRequest, hn]
      by_cases hs : add_article (net r) = true
      · simp [hs, ih, List.filter_cons, List.length_cons]
        omega
      · simp at hs
        simp [hs, ih, List.filter_cons]

/-! ### Claim theorems -/

/-- C1: in `InstapaperClient.add_article`, the upstream HTTP status determines
the outcome exactly — 201 yields `Saved`, 403 `AuthFailed`, 400 `BadRequest`,
500 `ServiceUnavailable`, any other status `UnexpectedStatus`, and a caught
transport-level failure `TransportError` — and the call reports success
(returns `True`) if and only if the status is 201. -/
theorem add_article_status_mapping (s : Nat) :
    saveOutcome (Except.ok 201) = SaveOutcome.Saved ∧
    saveOutcome (Except.ok 403) = SaveOutcome.AuthFailed ∧
    saveOutcome (Except.ok 400) = SaveOutcome.BadRequest ∧
    saveOutcome (Except.ok 500) = SaveOutcome.ServiceUnavailable ∧
    (s ≠ 201 → s ≠ 403 → s ≠ 400 → s ≠ 500 →
      saveOutcome (Except.ok s) = SaveOutcome.UnexpectedStatus) ∧
    (∀ e : Unit, saveOutcome (Except.error e) = SaveOutcome.TransportError) ∧
    (∀ resp : UpstreamResp, add_article resp = true ↔ saveOutcome resp = SaveOutcome.Saved) ∧
    (∀ resp : UpstreamResp, add_article resp = true ↔ resp = Except.ok 201) := by
  refine ⟨rfl, rfl, rfl, rfl, ?_, fun e => rfl, add_article_eq_saved, add_article_iff_201⟩
  intro h1 h2 h3 h4
  simp [saveOutcome, h1, h2, h3, h4]

/-- Witness for C1 at status 418: an unlisted status yields `UnexpectedStatus`. -/
theorem add_article_status_mapping_witness :
    saveOutcome (Except.ok 418) = SaveOutcome.UnexpectedStatus :=
  (add_article_status_mapping 418).2.2.2.2.1 (by decide) (by decide) (by decide) (by decide)

/-- C2: for every payload and every non-empty secret, verifying the payload
against the hex-encoded HMAC-SHA256 of that payload under that secret
succeeds. -/
theorem verify_roundtrip (payload : List Nat) (secret : Str) (h : secret ≠ []) :
    verify_webhook_signature payload
      (hexdigest (hmacSha256 (encodeUtf8 secret) payload)) secret = true := by
  unfold verify_webhook_signature
  rw [if_neg h]
  exact compare_digest_self _

/-- Witness for C2 at payload `hi` and secret `k`. -/
theorem verify_roundtrip_witness :
    verify_webhook_signature [104, 105]
      (hexdigest (hmacSha256 (encodeUtf8 ['k']) [104, 105])) ['k'] = true :=
  verify_roundtrip [104, 105] ['k'] (by decide)

/-- C9: when the configured secret is empty/unset, `verify_webhook_signature`
returns `True` for every payload and every signature string: the signature is
never inspected. -/
theorem verify_empty_secret (payload : List Nat) (signature : Str) :
    verify_webhook_signature payload signature [] = true := rfl

/-- C3: for non-empty content the derived note is the tag-stripped text; if
the stripped text exceeds 200 characters the note is its first 200 characters
with the 3-character ellipsis marker appended (untagged content of length 500
gives a note of exactly 203 characters); at most 200 characters gives the
full stripped text with no marker; empty content gives no note. -/
theorem makeNote_spec (content : Str) :
    (content = [] → makeNote content = none) ∧
    (content ≠ [] → ∃ note, makeNote content = some note ∧
      ((stripTags content).length ≤ 200 → note = stripTags content) ∧
      (200 < (stripTags content).length →
        note = (stripTags content).take 200 ++ ellipsis ∧ note.length = 203)) ∧
    (stripTags content = content → content.length = 500 →
      makeNote content = some (content.take 200 ++ ellipsis) ∧
      ∀ note, makeNote content = some note → note.length = 203) := by
  refine ⟨fun h => by simp [makeNote, h], ?_, ?_⟩
  · intro h
    by_cases hl : 200 < (stripTags content).length
    · refine ⟨(stripTags content).take 200 ++ ellipsis, by simp [makeNote, h, hl], ?_, ?_⟩
      · intro hle
        exact absurd hl (by omega)
      · intro _
        refine ⟨rfl, ?_⟩
        simp only [ellipsis, List.length_append, List.length_take, List.length_cons,
          List.length_nil]
        omega
    · exact ⟨stripTags content, by simp [makeNote, h, hl], fun _ => rfl,
        fun hgt => absurd hgt hl⟩
  · intro hst hlen
    have hne : content ≠ [] := by
      intro hc
      rw [hc] at hlen
      simp at hlen
    have hgt : 200 < (stripTags content).length := by
      rw [hst, hlen]
      omega
    have h1 : makeNote content = some (content.take 200 ++ ellipsis) := by
      simp only [makeNote, if_neg hne, hst, if_pos (hst ▸ hgt)]
    refine ⟨h1, ?_⟩
    intro note hnote
    rw [h1, Option.some.injEq] at hnote
    rw [← hnote]
    simp only [ellipsis, List.length_append, List.length_take, List.length_cons,
      List.length_nil]
    omega

/-- Witness for C3: content `<p>hi</p>` strips to `hi` (length 2 ≤ 200) and
the note is the full stripped text. -/
theorem makeNote_spec_witness :
    makeNote ("<p>hi</p>".data) = some ("hi".data) := by
  obtain ⟨note, hn, hle, -⟩ := (makeNote_spec ("<p>hi</p>".data)).2.1 (by decide)
  rw [hn, hle (by decide)]
  rfl

/-- C4: an entry whose `url` field is missing or empty normalizes to `Skip`
on both paths: no outbound call is made for it, the batch count and trace are
as if the entry were absent, and the single-entry path reports failure with
no call. -/
theorem missing_url_skip (username : Str) (net : SaveReq → UpstreamResp)
    (fs : List (Str × JVal)) (pre post : List JVal)
    (h : olookup fs urlKey = none ∨ olookup fs urlKey = some (JVal.str []))
    (huser : username ≠ []) :
    normalizeOne (JVal.obj fs) = NormResult.skip ∧
    process_new_entries username net (pre ++ JVal.obj fs :: post) =
      process_new_entries username net (pre ++ post) ∧
    process_saved_entry username net (JVal.obj fs) = (false, []) := by
  have hskip : normalizeOne (JVal.obj fs) = NormResult.skip := by
    rcases h with h | h <;> simp [normalizeOne, h, jtruthy]
  refine ⟨hskip, ?_, ?_⟩
  · simp only [process_new_entries, if_neg huser, List.foldl_append, List.foldl_cons]
    congr 1
    simp [pneStep, hskip]
  · simp [process_saved_entry, huser, hskip]

/-- Witness for C4: the empty-dict entry, with no url at all. -/
theorem missing_url_skip_witness :
    normalizeOne (JVal.obj []) = NormResult.skip ∧
    process_new_entries ['u'] (fun _ => Except.ok 201) ([] ++ JVal.obj [] :: []) =
      process_new_entries ['u'] (fun _ => Except.ok 201) ([] ++ []) ∧
    process_saved_entry ['u'] (fun _ => Except.ok 201) (JVal.obj []) = (false, []) :=
  missing_url_skip ['u'] (fun _ => Except.ok 201) [] [] [] (Or.inl rfl) (by decide)

/-- C5: with a configured username, the batch loop calls out exactly once per
entry that normalizes to a request, in payload order, independently of any
outcome (no failure aborts later entries), never more than one call per
entry, and the count is the number of calls whose outcome was `Saved`. -/
theorem process_new_entries_spec (username : Str) (net : SaveReq → UpstreamResp)
    (entries : List JVal) (h : username ≠ []) :
    (process_new_entries username net entries).2 = entries.filterMap entryRequest ∧
    (process_new_entries username net entries).2.length ≤ entries.length ∧
    (process_new_entries username net entries).1 =
      ((process_new_entries username net entries).2.filter
        (fun r => saveOutcome (net r) == SaveOutcome.Saved)).length := by
  have key : process_new_entries username net entries =
      (((entries.filterMap entryRequest).filter (fun r => add_article (net r))).length,
       entries.filterMap entryRequest) := by
    unfold process_new_entries
    rw [if_neg h, pne_foldl]
    simp
  refine ⟨by rw [key], ?_, ?_⟩
  · rw [key]
    exact List.length_filterMap_le _ _
  · rw [key]
    dsimp only
    congr 1
    apply List.filter_congr
    intro r _
    rw [add_article_beq]

/-- Witness for C5: a one-entry batch whose save succeeds. -/
theorem process_new_entries_spec_witness :
    (process_new_entries ['u'] (fun _ => Except.ok 201)
        [JVal.obj [(urlKey, JVal.str ['u'])]]).2 =
      [JVal.obj [(urlKey, JVal.str ['u'])]].filterMap entryRequest ∧
    (process_new_entries ['u'] (fun _ => Except.ok 201)
        [JVal.obj [(urlKey, JVal.str ['u'])]]).2.length ≤
      [JVal.obj [(urlKey, JVal.str ['u'])]].length ∧
    (process_new_entries ['u'] (fun _ => Except.ok 201)
        [JVal.obj [(urlKey, JVal.str ['u'])]]).1 =
      ((process_new_entries ['u'] (fun _ => Except.ok 201)
          [JVal.obj [(urlKey, JVal.str ['u'])]]).2.filter
        (fun r => saveOutcome ((fun _ => Except.ok 201) r) == SaveOutcome.Saved)).length :=
  process_new_entries_spec ['u'] (fun _ => Except.ok 201)
    [JVal.obj [(urlKey, JVal.str ['u'])]] (by decide)

/-- C8: the single-entry path sends exactly one call whose note carries the
fixed provenance tag: the tag alone when no truthy content-derived note
exists, the tag, a space and the note otherwise — so a note is always present
there — while the batch path sends the content-derived note unchanged. -/
theorem provenance_tag_spec (username : Str) (net : SaveReq → UpstreamResp)
    (e : JVal) (r : SaveReq) (hnorm : normalizeOne e = NormResult.req r)
    (huser : username ≠ []) :
    (process_saved_entry username net e).2 =
      [{ r with selection := some (applyTag r.selection) }] ∧
    (∃ t, applyTag r.selection = tagText ++ t) ∧
    ((r.selection = none ∨ r.selection = some []) → applyTag r.selection = tagText) ∧
    (∀ d, r.selection = some d → d ≠ [] → applyTag r.selection = tagText ++ ' ' :: d) ∧
    (process_new_entries username net [e]).2 = [r] := by
  refine ⟨?_, ?_, ?_, ?_, ?_⟩
  · simp [process_saved_entry, huser, hnorm, tagReq]
  · cases hd : r.selection with
    | none => exact ⟨[], by simp [applyTag]⟩
    | some s =>
      by_cases hs : s = []
      · exact ⟨[], by simp [applyTag, hs]⟩
      · exact ⟨' ' :: s, by simp [applyTag, hs]⟩
  · rintro (h | h) <;> simp [applyTag, h]
  · intro d hd hne
    simp [applyTag, hd, hne]
  · simp [process_new_entries, huser, pneStep, hnorm]

/-- Witness for C8: an entry with url and content `<p>hi</p>`; the saved-path
note is the tag, a space and `hi`. -/
theorem provenance_tag_spec_witness :
    (process_saved_entry ['u'] (fun _ => Except.ok 201)
        (JVal.obj [(urlKey, JVal.str ['u']), (contentKey, JVal.str ("<p>hi</p>".data))])).2 =
      [{ url := JVal.str ['u'], title := JVal.str [],
         selection := some (applyTag (some ['h', 'i'])) }] ∧
    (∃ t, applyTag (some ['h', 'i']) = tagText ++ t) ∧
    ((some ['h', 'i'] = (none : Option Str) ∨ some ['h', 'i'] = some ([] : Str)) →
      applyTag (some ['h', 'i']) = tagText) ∧
    (∀ d, some ['h', 'i'] = some d → d ≠ [] → applyTag (some ['h', 'i']) = tagText ++ ' ' :: d) ∧
    (process_new_entries ['u'] (fun _ => Except.ok 201)
        [JVal.obj [(urlKey, JVal.str ['u']), (contentKey, JVal.str ("<p>hi</p>".data))]]).2 =
      [{ url := JVal.str ['u'], title := JVal.str [], selection := some ['h', 'i'] }] :=
  provenance_tag_spec ['u'] (fun _ => Except.ok 201)
    (JVal.obj [(urlKey, JVal.str ['u']), (contentKey, JVal.str ("<p>hi</p>".data))])
    { url := JVal.str ['u'], title := JVal.str [], selection := some ['h', 'i'] }
    rfl (by decide)

/-- C10: a request whose parsed JSON value is falsy — and the empty dict, `[]`, `0`,
`false`, `""`, `null` are all falsy — is answered 400 with body
an `error` field reading `Empty payload`, and no outbound call, before any event routing
(the result does not depend on the event type). -/
theorem falsy_payload_rejected (cfg : Config) (net : SaveReq → UpstreamResp)
    (req : Request) (data : JVal)
    (hsig : cfg.secret = [] ∨
      verify_webhook_signature req.rawBody req.signature cfg.secret = true)
    (hp : req.parsed = Except.ok data)
    (hfalsy : jtruthy data = false) :
    webhook_handler cfg net req =
      ((400, [(errKey, JVal.str ("Empty payload".data))]), []) ∧
    jtruthy (JVal.obj []) = false ∧ jtruthy (JVal.arr []) = false ∧
    jtruthy (JVal.num 0) = false ∧ jtruthy (JVal.bool false) = false ∧
    jtruthy (JVal.str []) = false ∧ jtruthy JVal.null = false := by
  refine ⟨?_, rfl, rfl, rfl, rfl, rfl, rfl⟩
  have hs : ¬(cfg.secret ≠ [] ∧
      verify_webhook_signature req.rawBody req.signature cfg.secret = false) := by
    rcases hsig with h | h <;> simp [h]
  simp only [webhook_handler, if_neg hs, hp, if_pos hfalsy]

/-- Witness for C10 at the empty-dict payload. -/
theorem falsy_payload_rejected_witness :
    webhook_handler ⟨[], ['u']⟩ (fun _ => Except.ok 201)
        ⟨[], [], [], Except.ok (JVal.obj [])⟩ =
      ((400, [(errKey, JVal.str ("Empty payload".data))]), []) ∧
    jtruthy (JVal.obj []) = false ∧ jtruthy (JVal.arr []) = false ∧
    jtruthy (JVal.num 0) = false ∧ jtruthy (JVal.bool false) = false ∧
    jtruthy (JVal.str []) = false ∧ jtruthy JVal.null = false :=
  falsy_payload_rejected ⟨[], ['u']⟩ (fun _ => Except.ok 201)
    ⟨[], [], [], Except.ok (JVal.obj [])⟩ (JVal.obj []) (Or.inl rfl) rfl rfl

/-- C7: a `save_entry` event whose upstream save fails is still answered with
HTTP 200; the body has `status = "error"`, `event_type = "save_entry"`,
`entry_processed = false`, and `entry_title` taken from the entry (default
`"Unknown title"`). -/
theorem save_entry_failure_response (cfg : Config) (net : SaveReq → UpstreamResp)
    (req : Request) (gs : List (Str × JVal)) (r : SaveReq)
    (hsig : cfg.secret = [] ∨
      verify_webhook_signature req.rawBody req.signature cfg.secret = true)
    (hev : req.eventType = saveEntryS)
    (hp : req.parsed = Except.ok (JVal.obj [(entryKey, JVal.obj gs)]))
    (huser : cfg.username ≠ [])
    (hnorm : normalizeOne (JVal.obj gs) = NormResult.req r)
    (hfail : add_article (net (tagReq r)) = false) :
    webhook_handler cfg net req =
      ((200, [(statusKey, JVal.str ("error".data)),
              (eventTypeKey, JVal.str saveEntryS),
              (entryProcessedKey, JVal.bool false),
              (entryTitleKey,
               (olookup gs titleKey).getD (JVal.str ("Unknown title".data)))]),
       [tagReq r]) := by
  have hs : ¬(cfg.secret ≠ [] ∧
      verify_webhook_signature req.rawBody req.signature cfg.secret = false) := by
    rcases hsig with h | h <;> simp [h]
  simp only [webhook_handler, if_neg hs, hp, hev]
  simp [olookup, process_saved_entry, huser, hnorm, hfail]
  rw [if_neg (by simp [jtruthy]), if_neg (by decide : ¬(saveEntryS = newEntriesS))]

/-- Witness for C7: an entry with url `y` and title `S`, upstream 403. -/
theorem save_entry_failure_response_witness :
    webhook_handler ⟨[], ['u']⟩ (fun _ => Except.ok 403)
        ⟨[], saveEntryS, [],
         Except.ok (JVal.obj [(entryKey,
           JVal.obj [(urlKey, JVal.str ['y']), (titleKey, JVal.str ['S'])])])⟩ =
      ((200, [(statusKey, JVal.str ("error".data)),
              (eventTypeKey, JVal.str saveEntryS),
              (entryProcessedKey, JVal.bool false),
              (entryTitleKey,
               (olookup [(urlKey, JVal.str ['y']), (titleKey, JVal.str ['S'])]
                 titleKey).getD (JVal.str ("Unknown title".data)))]),
       [tagReq { url := JVal.str ['y'], title := JVal.str ['S'], selection := none }]) :=
  save_entry_failure_response ⟨[], ['u']⟩ (fun _ => Except.ok 403)
    ⟨[], saveEntryS, [],
     Except.ok (JVal.obj [(entryKey,
       JVal.obj [(urlKey, JVal.str ['y']), (titleKey, JVal.str ['S'])])])⟩
    [(urlKey, JVal.str ['y']), (titleKey, JVal.str ['S'])]
    { url := JVal.str ['y'], title := JVal.str ['S'], selection := none }
    (Or.inl rfl) rfl rfl (by decide) rfl rfl

/-- C6 counterexample: the empty-payload response, one of the bodies the claim
covers, has the single field `error` reading `Empty payload`, so it
contains neither `status` nor `event_type`. -/
theorem webhook_error_body_no_status :
    webhook_handler ⟨[], ['u']⟩ (fun _ => Except.ok 201)
        ⟨[], [], [], Except.ok (JVal.obj [])⟩ =
      ((400, [(errKey, JVal.str ("Empty payload".data))]), []) ∧
    ¬(statusKey ∈ ([(errKey, JVal.str ("Empty payload".data))].map Prod.fst) ∨
      eventTypeKey ∈ ([(errKey, JVal.str ("Empty payload".data))].map Prod.fst)) :=
  ⟨rfl, by decide⟩

/-- C6 (amended): every `webhook_handler` response either is a 200 response
whose JSON body contains at least the `status` and `event_type` fields (the
new-entries, save-entry and unknown-event responses), or is one of the error
responses (403 invalid signature, 400 invalid JSON / empty payload, 500
internal error), whose body consists of the single field `error`. -/
theorem webhook_body_fields (cfg : Config) (net : SaveReq → UpstreamResp)
    (req : Request) :
    ((webhook_handler cfg net req).1.1 = 200 ∧
     statusKey ∈ (webhook_handler cfg net req).1.2.map Prod.fst ∧
     eventTypeKey ∈ (webhook_handler cfg net req).1.2.map Prod.fst) ∨
    ((webhook_handler cfg net req).1.1 ∈ ([400, 403, 500] : List Nat) ∧
     (webhook_handler cfg net req).1.2.map Prod.fst = [errKey]) := by
  unfold webhook_handler
  split
  · right; exact ⟨by decide, rfl⟩
  split
  · right; exact ⟨by decide, rfl⟩
  split
  · right; exact ⟨by decide, rfl⟩
  split
  · split
    · dsimp only
      split
      · left; refine ⟨by simp, by simp, by simp⟩
      · right; exact ⟨by decide, rfl⟩
    · right; exact ⟨by decide, rfl⟩
  split
  · split
    · split
      · left; refine ⟨by simp, by simp, by simp⟩
      · right; exact ⟨by decide, rfl⟩
    · right; exact ⟨by decide, rfl⟩
  · left; refine ⟨by simp, by simp, by simp⟩
